import Mathlib

/-!
Verification of the trellis-api job-orchestration gateway.

Shallow embedding of the core components of the repository:
- `src/services/job_store.py` (Redis-backed job records with TTL expiry),
- `src/tasks/rembg_tasks.py` / `src/tasks/trellis_tasks.py` (dispatch retry loop),
- `src/services/storage.py` (path resolution and traversal check),
- `src/routers/trellis.py` (upload validation ordering),
- `src/routers/jobs.py` (delete/cancel route),
- `src/services/trellis_v1.py` (Gradio result extraction),
- `src/services/trellis_v2.py` (RunPod status polling loop).

Machine integers never overflow in the modelled code paths, so counters and
timestamps are `Nat`; Python `None`-able values are `Option`; the Redis store
is a function from keys to optional (record, expiry-timestamp) pairs, with
`setex` writing expiry `now + ttl` exactly as `redis.setex` does.
-/

namespace Trellis

/-- Job lifecycle status, from `src/models/enums.py` (`JobStatus`). -/
inductive JobStatus
  | pending
  | processing
  | completed
  | failed
  | cancelled
deriving DecidableEq, Repr

/-- The terminal statuses, as tested by `update_job` in
`src/services/job_store.py` line 101: `COMPLETED`, `FAILED`, `CANCELLED`. -/
def JobStatus.isTerminal : JobStatus → Bool
  | .completed => true
  | .failed => true
  | .cancelled => true
  | _ => false

/-- Job kind, from `src/models/enums.py` (`JobType`). -/
inductive JobType
  | rembg
  | trellis
deriving DecidableEq, Repr

/-- A job record as serialized to Redis by `JobStore.create_job`
(`src/services/job_store.py` lines 46-62).  Timestamps are abstract `Nat`
instants; the free-form `metadata` kwargs (dynamic extra dict keys) are not
modelled since no modelled claim reads them. -/
structure JobRecord where
  job_id : String
  job_type : JobType
  status : JobStatus
  created_at : Nat
  updated_at : Nat
  completed_at : Option Nat
  progress : Int
  message : String
  error : Option String
  input_count : Nat
  output_count : Nat
  filenames : List String
  download_urls : List String
  celery_task_id : Option String
deriving DecidableEq, Repr

/-- The Redis keyspace restricted to job keys: each key holds a record plus
the absolute instant at which the key expires (Redis `SETEX` semantics). -/
abbrev Store := String → Option (JobRecord × Nat)

/-- The empty store. -/
def emptyStore : Store := fun _ => none

/-- Model of `redis.setex(key, ttl, value)`: write the record and arm expiry at
`now + ttl` (`src/services/job_store.py` lines 65 and 128). -/
def setex (s : Store) (job_id : String) (ttl now : Nat) (r : JobRecord) : Store :=
  fun id => if id = job_id then some (r, now + ttl) else s id

/-- Model of `JobStore.get_job` (`src/services/job_store.py` lines 70-76): a key that
has passed its expiry instant is indistinguishable from an absent key. -/
def get_job (s : Store) (now : Nat) (job_id : String) : Option JobRecord :=
  match s job_id with
  | some (r, expiry) => if now < expiry then some r else none
  | none => none

/-- The raw stored record, ignoring expiry (used to state invariants about
whatever bytes sit under the key). -/
def recAt (s : Store) (job_id : String) : Option JobRecord :=
  (s job_id).map Prod.fst

/-- Model of `JobStore.create_job` (`src/services/job_store.py` lines 36-68): fresh
`pending` record, all timestamps `now`, `completed_at = None`, progress 0,
stored with `setex` under the job key. -/
def create_job (s : Store) (ttl now : Nat) (job_id : String) (job_type : JobType)
    (input_count : Nat) (filenames : List String) : Store × JobRecord :=
  let r : JobRecord :=
    { job_id := job_id
      job_type := job_type
      status := JobStatus.pending
      created_at := now
      updated_at := now
      completed_at := none
      progress := 0
      message := "Queued for processing (" ++ toString input_count ++ " file(s))"
      error := none
      input_count := input_count
      output_count := 0
      filenames := filenames
      download_urls := []
      celery_task_id := none }
  (setex s job_id ttl now r, r)

/-- The optional keyword arguments of one `JobStore.update_job` call
(`src/services/job_store.py` lines 78-89), together with the instant `now`
at which the call runs (`datetime.utcnow()` at line 96). -/
structure UpdateCall where
  now : Nat
  status : Option JobStatus
  progress : Option Int
  message : Option String
  error : Option String
  output_count : Option Nat
  download_urls : Option (List String)
  celery_task_id : Option String
deriving DecidableEq, Repr

/-- Net effect of the sequential conditional field writes of `update_job`
(`src/services/job_store.py` lines 96-124) on an existing record: each field
is overwritten exactly when the corresponding argument was supplied,
`updated_at` is always refreshed, and `completed_at` is stamped with `now`
exactly when a terminal status argument is supplied (it is never cleared). -/
def applyUpdate (r : JobRecord) (c : UpdateCall) : JobRecord :=
  { r with
    updated_at := c.now
    status := c.status.getD r.status
    completed_at :=
      match c.status with
      | some st => if st.isTerminal then some c.now else r.completed_at
      | none => r.completed_at
    progress := c.progress.getD r.progress
    message := c.message.getD r.message
    error := match c.error with | some e => some e | none => r.error
    output_count := c.output_count.getD r.output_count
    download_urls := c.download_urls.getD r.download_urls
    celery_task_id :=
      match c.celery_task_id with | some t => some t | none => r.celery_task_id }

/-- Model of `JobStore.update_job` (`src/services/job_store.py` lines 78-131): fetch
the record (`None` means the caller gets `None` back and nothing is written),
apply the supplied fields, and re-store with the full TTL via `setex`. -/
def update_job (s : Store) (ttl : Nat) (job_id : String) (c : UpdateCall) :
    Store × Option JobRecord :=
  match get_job s c.now job_id with
  | none => (s, none)
  | some r =>
    let rNew := applyUpdate r c
    (setex s job_id ttl c.now rNew, some rNew)

/-- The `update_job` call made by `JobStore.set_processing`
(`src/services/job_store.py` lines 133-140). -/
def setProcessingCall (now : Nat) (celery_task_id : String) : UpdateCall :=
  { now := now
    status := some JobStatus.processing
    progress := none
    message := some "Processing started"
    error := none
    output_count := none
    download_urls := none
    celery_task_id := some celery_task_id }

/-- Model of `message or f"Successfully processed {n} file(s)"` from `set_completed`
(`src/services/job_store.py` line 156): Python `or` also replaces an empty
string by the default. -/
def completedMessage (output_count : Nat) (message : Option String) : String :=
  match message with
  | some m =>
      if m = "" then "Successfully processed " ++ toString output_count ++ " file(s)" else m
  | none => "Successfully processed " ++ toString output_count ++ " file(s)"

/-- The `update_job` call made by `JobStore.set_completed`
(`src/services/job_store.py` lines 142-157): status `completed`,
progress 100, output count and download URLs. -/
def setCompletedCall (now : Nat) (output_count : Nat) (download_urls : List String)
    (message : Option String) : UpdateCall :=
  { now := now
    status := some JobStatus.completed
    progress := some 100
    message := some (completedMessage output_count message)
    error := none
    output_count := some output_count
    download_urls := some download_urls
    celery_task_id := none }

/-- The `update_job` call made by `JobStore.set_failed`
(`src/services/job_store.py` lines 159-166): status `failed`, the error text
stored verbatim, message "Processing failed". -/
def setFailedCall (now : Nat) (error : String) : UpdateCall :=
  { now := now
    status := some JobStatus.failed
    progress := none
    message := some "Processing failed"
    error := some error
    output_count := none
    download_urls := none
    celery_task_id := none }

/-- The `update_job` call made by `JobStore.set_cancelled`
(`src/services/job_store.py` lines 168-174). -/
def setCancelledCall (now : Nat) : UpdateCall :=
  { now := now
    status := some JobStatus.cancelled
    progress := none
    message := some "Job cancelled by user"
    error := none
    output_count := none
    download_urls := none
    celery_task_id := none }

/-- Model of `JobStore.set_processing`. -/
def set_processing (s : Store) (ttl : Nat) (job_id : String) (celery_task_id : String)
    (now : Nat) : Store × Option JobRecord :=
  update_job s ttl job_id (setProcessingCall now celery_task_id)

/-- Model of `JobStore.set_completed`. -/
def set_completed (s : Store) (ttl : Nat) (job_id : String) (output_count : Nat)
    (download_urls : List String) (message : Option String) (now : Nat) :
    Store × Option JobRecord :=
  update_job s ttl job_id (setCompletedCall now output_count download_urls message)

/-- Model of `JobStore.set_failed`. -/
def set_failed (s : Store) (ttl : Nat) (job_id : String) (error : String) (now : Nat) :
    Store × Option JobRecord :=
  update_job s ttl job_id (setFailedCall now error)

/-- Model of `JobStore.set_cancelled`. -/
def set_cancelled (s : Store) (ttl : Nat) (job_id : String) (now : Nat) :
    Store × Option JobRecord :=
  update_job s ttl job_id (setCancelledCall now)

/-- Model of `JobStore.delete_job` (`src/services/job_store.py` lines 176-182):
unconditionally drop the key; report whether a live key was removed. -/
def delete_job_store (s : Store) (now : Nat) (job_id : String) : Store × Bool :=
  (fun id => if id = job_id then none else s id, (get_job s now job_id).isSome)

/-- Claim C5: updating a job with no live record (never created, deleted, or
expired) returns `None` from `update_job` and from each of the four status
setters, and leaves the store bit-for-bit unchanged — in particular no record
is created under that ID. -/
theorem c5_update_missing_job_is_noop (s : Store) (ttl : Nat) (job_id : String)
    (c : UpdateCall) (tid err : String) (oc : Nat) (dls : List String)
    (msg : Option String) (h : get_job s c.now job_id = none) :
    update_job s ttl job_id c = (s, none) ∧
    (get_job s c.now job_id = none →
      set_processing s ttl job_id tid c.now = (s, none) ∧
      set_completed s ttl job_id oc dls msg c.now = (s, none) ∧
      set_failed s ttl job_id err c.now = (s, none) ∧
      set_cancelled s ttl job_id c.now = (s, none)) := by
  refine ⟨?_, fun h2 => ⟨?_, ?_, ?_, ?_⟩⟩ <;>
    simp [update_job, set_processing, set_completed, set_failed, set_cancelled,
      setProcessingCall, setCompletedCall, setFailedCall, setCancelledCall, h]

/-- Witness for C5 at a concrete input: the empty store has no record for
"job-1", and every update operation returns `(store, none)` unchanged. -/
theorem c5_update_missing_job_is_noop_witness :
    update_job emptyStore 3600 "job-1"
        { now := 7, status := some JobStatus.processing, progress := none,
          message := none, error := none, output_count := none,
          download_urls := none, celery_task_id := none } = (emptyStore, none) :=
  (c5_update_missing_job_is_noop emptyStore 3600 "job-1"
    { now := 7, status := some JobStatus.processing, progress := none,
      message := none, error := none, output_count := none,
      download_urls := none, celery_task_id := none }
    "tid" "err" 0 [] none rfl).1

/-! ## Reachability: sequences of `update_job` calls against one job key -/

/-- One `update_job` call, keeping only the resulting store. -/
def applyCall (ttl : Nat) (job_id : String) (s : Store) (c : UpdateCall) : Store :=
  (update_job s ttl job_id c).1

/-- The store after a sequence of `update_job` calls against `job_id`.
All writes by production code (`set_processing`, `set_completed`,
`set_failed`, `set_cancelled`, progress callbacks, retry-message updates,
`celery_task_id` attachment) are such calls. -/
def runCalls (ttl : Nat) (job_id : String) (s : Store) (cs : List UpdateCall) : Store :=
  cs.foldl (applyCall ttl job_id) s

/-- The call supplies a terminal status argument. -/
def UpdateCall.suppliesTerminal (c : UpdateCall) : Bool :=
  match c.status with
  | some st => st.isTerminal
  | none => false

/-- The call supplies a non-terminal status argument (`pending`/`processing`). -/
def UpdateCall.suppliesNonTerminal (c : UpdateCall) : Bool :=
  match c.status with
  | some st => !st.isTerminal
  | none => false

/-- No call supplying a non-terminal status occurs after a call supplying a
terminal status: the job is never moved out of a terminal state. -/
def noRevert : List UpdateCall → Bool
  | [] => true
  | c :: rest =>
      (!c.suppliesTerminal || rest.all (fun d => !d.suppliesNonTerminal)) && noRevert rest

/-- The C3 invariant as a boolean: `completed_at` is set iff the status is
terminal. -/
def ctOK (r : JobRecord) : Bool := r.completed_at.isSome == r.status.isTerminal

/-- The one-directional C3 invariant: a terminal status has `completed_at`
set. -/
def termOK (r : JobRecord) : Bool := !r.status.isTerminal || r.completed_at.isSome

theorem termOK_applyUpdate (r : JobRecord) (c : UpdateCall) (h : termOK r = true) :
    termOK (applyUpdate r c) = true := by
  cases hst : c.status with
  | none => simpa [termOK, applyUpdate, hst] using h
  | some st => cases hT : st.isTerminal <;> simp [termOK, applyUpdate, hst, hT]

theorem recAt_of_get_job {s : Store} {now : Nat} {jid : String} {r : JobRecord}
    (h : get_job s now jid = some r) : recAt s jid = some r := by
  unfold get_job at h
  unfold recAt
  cases hs : s jid with
  | none => rw [hs] at h; exact absurd h (by simp)
  | some p =>
    obtain ⟨r0, e0⟩ := p
    rw [hs] at h
    replace h : (if now < e0 then some r0 else none) = some r := h
    split at h
    · simpa using h
    · exact absurd h (by simp)

theorem recAt_applyCall (ttl : Nat) (jid : String) (s : Store) (c : UpdateCall) :
    recAt (applyCall ttl jid s c) jid =
      match get_job s c.now jid with
      | none => recAt s jid
      | some r => some (applyUpdate r c) := by
  unfold applyCall update_job
  cases hg : get_job s c.now jid with
  | none => simp
  | some r => simp [recAt, setex]

/-- Part (i) of the corrected C3 invariant is inductive over arbitrary call
sequences: every `update_job` call preserves "terminal implies
`completed_at` set", because a terminal status argument always stamps
`completed_at := now` and no call ever clears `completed_at`. -/
theorem termOK_runCalls (ttl : Nat) (jid : String) :
    ∀ (cs : List UpdateCall) (s : Store),
      (∀ r, recAt s jid = some r → termOK r = true) →
      ∀ r, recAt (runCalls ttl jid s cs) jid = some r → termOK r = true := by
  intro cs
  induction cs with
  | nil => intro s h r hr; exact h r hr
  | cons c rest ih =>
    intro s h r hr
    refine ih (applyCall ttl jid s c) ?_ r (by simpa [runCalls] using hr)
    intro r0 hr0
    rw [recAt_applyCall] at hr0
    cases hg : get_job s c.now jid with
    | none => rw [hg] at hr0; exact h r0 hr0
    | some rPrev =>
      rw [hg] at hr0
      simp only [Option.some.injEq] at hr0
      subst hr0
      exact termOK_applyUpdate rPrev c (h rPrev (recAt_of_get_job hg))

/-- The two-sided C3 invariant survives one call, provided a call supplying a
non-terminal status is never applied to a record already terminal; the side
condition threads through via `noRevert`. -/
theorem ctOK_invStep (ttl : Nat) (jid : String) (c : UpdateCall) (rest : List UpdateCall)
    (s : Store)
    (hnr : (!c.suppliesTerminal || rest.all (fun d => !d.suppliesNonTerminal)) = true)
    (h : ∀ r, recAt s jid = some r → ctOK r = true ∧
      (r.status.isTerminal = true → (c :: rest).all (fun d => !d.suppliesNonTerminal) = true)) :
    ∀ r, recAt (applyCall ttl jid s c) jid = some r → ctOK r = true ∧
      (r.status.isTerminal = true → rest.all (fun d => !d.suppliesNonTerminal) = true) := by
  intro r hr
  rw [recAt_applyCall] at hr
  cases hg : get_job s c.now jid with
  | none =>
    rw [hg] at hr
    obtain ⟨h1, h2⟩ := h r hr
    refine ⟨h1, fun ht => ?_⟩
    have h3 := h2 ht
    simp only [List.all_cons, Bool.and_eq_true] at h3
    exact h3.2
  | some r0 =>
    rw [hg] at hr
    simp only [Option.some.injEq] at hr
    subst hr
    obtain ⟨h1, h2⟩ := h r0 (recAt_of_get_job hg)
    cases hst : c.status with
    | none =>
      constructor
      · simpa [ctOK, applyUpdate, hst] using h1
      · intro ht
        have ht0 : r0.status.isTerminal = true := by
          simpa [applyUpdate, hst] using ht
        have h3 := h2 ht0
        simp only [List.all_cons, Bool.and_eq_true] at h3
        exact h3.2
    | some st =>
      cases hT : st.isTerminal with
      | true =>
        constructor
        · simp [ctOK, applyUpdate, hst, hT]
        · intro _
          have : c.suppliesTerminal = true := by
            simp [UpdateCall.suppliesTerminal, hst, hT]
          simpa [this] using hnr
      | false =>
        have hnt0 : r0.status.isTerminal = false := by
          by_contra hc
          have ht0 : r0.status.isTerminal = true := by
            revert hc; cases r0.status.isTerminal <;> simp
          have h3 := h2 ht0
          simp only [List.all_cons, Bool.and_eq_true] at h3
          have := h3.1
          simp [UpdateCall.suppliesNonTerminal, hst, hT] at this
        have hcn : r0.completed_at.isSome = false := by
          simpa [ctOK, hnt0] using h1
        constructor
        · simp [ctOK, applyUpdate, hst, hT, hcn]
        · intro ht
          exact absurd (by simpa [applyUpdate, hst] using ht) (by simp [hT])

/-- Folding `ctOK_invStep` over a `noRevert` sequence. -/
theorem ctOK_runCalls (ttl : Nat) (jid : String) :
    ∀ (cs : List UpdateCall) (s : Store), noRevert cs = true →
      (∀ r, recAt s jid = some r → ctOK r = true ∧
        (r.status.isTerminal = true → cs.all (fun d => !d.suppliesNonTerminal) = true)) →
      ∀ r, recAt (runCalls ttl jid s cs) jid = some r → ctOK r = true := by
  intro cs
  induction cs with
  | nil => intro s _ h r hr; exact (h r hr).1
  | cons c rest ih =>
    intro s hnr h r hr
    unfold noRevert at hnr
    rw [Bool.and_eq_true] at hnr
    exact ih (applyCall ttl jid s c) hnr.2
      (ctOK_invStep ttl jid c rest s hnr.1 h) r (by simpa [runCalls] using hr)

theorem termOK_iff (r : JobRecord) :
    termOK r = true ↔ (r.status.isTerminal = true → r.completed_at ≠ none) := by
  unfold termOK
  cases hT : r.status.isTerminal <;> cases hC : r.completed_at <;> simp [hT, hC]

theorem ctOK_iff (r : JobRecord) :
    ctOK r = true ↔ (r.completed_at ≠ none ↔ r.status.isTerminal = true) := by
  unfold ctOK
  cases hT : r.status.isTerminal <;> cases hC : r.completed_at <;> simp [hT, hC]

theorem termOK_of_ctOK (r : JobRecord) (h : ctOK r = true) : termOK r = true := by
  unfold ctOK at h
  unfold termOK
  cases hT : r.status.isTerminal <;> cases hC : r.completed_at <;>
    simp [hT, hC] at h ⊢

/-- The run of the C3 counterexample: create the job, complete it, then apply
`set_processing` again — exactly what happens when the at-least-once queue
redelivers the task after a completion (`acks_late=True` in
`src/tasks/rembg_tasks.py` line 25), since `update_job` never clears
`completed_at` when it writes a non-terminal status. -/
def c3BadStore : Store :=
  runCalls 1000 "j" (create_job emptyStore 1000 0 "j" JobType.rembg 1 ["a.png"]).1
    [setCompletedCall 1 1 ["u"] none, setProcessingCall 2 "t"]

/-- Claim C3, counterexample: the sequence create → `set_completed` →
`set_processing` (all operations named by the claim) yields a record with
`status = processing` (non-terminal) but `completed_at` still set, refuting
"completed_at is non-null iff status is terminal" for arbitrary sequences of
`JobStore` update operations. -/
theorem c3_counterexample :
    ¬ (∀ r, recAt c3BadStore "j" = some r →
        (r.completed_at ≠ none ↔ r.status.isTerminal = true)) := by
  intro h
  have hv : recAt c3BadStore "j" = some
      { job_id := "j", job_type := JobType.rembg, status := JobStatus.processing,
        created_at := 0, updated_at := 2, completed_at := some 1, progress := 100,
        message := "Processing started", error := none, input_count := 1,
        output_count := 1, filenames := ["a.png"], download_urls := ["u"],
        celery_task_id := some "t" } := by decide
  have h2 := h _ hv
  exact absurd (h2.mp (by simp)) (by decide)

/-- Claim C3 (amended): for every job created by `create_job` and any
sequence of `JobStore` update operations, a terminal status implies
`completed_at` is non-null; the full equivalence `completed_at ≠ null ↔
status terminal` additionally requires that no operation supplying a
non-terminal status (such as `set_processing`) is applied after a terminal
transition — `update_job` stamps `completed_at` on every terminal status
write but never clears it on a non-terminal one. -/
theorem c3_completed_at_iff_terminal (ttl now0 : Nat) (jid : String) (jt : JobType)
    (ic : Nat) (fns : List String) (cs : List UpdateCall) :
    (∀ r, recAt (runCalls ttl jid (create_job emptyStore ttl now0 jid jt ic fns).1 cs) jid =
        some r → r.status.isTerminal = true → r.completed_at ≠ none) ∧
    (noRevert cs = true →
      ∀ r, recAt (runCalls ttl jid (create_job emptyStore ttl now0 jid jt ic fns).1 cs) jid =
          some r → (r.completed_at ≠ none ↔ r.status.isTerminal = true)) := by
  have hstart : ∀ r, recAt (create_job emptyStore ttl now0 jid jt ic fns).1 jid = some r →
      ctOK r = true ∧ (r.status.isTerminal = true →
        cs.all (fun d => !d.suppliesNonTerminal) = true) := by
    intro r hr
    have hr0 : (create_job emptyStore ttl now0 jid jt ic fns).2 = r := by
      simpa [create_job, recAt, setex] using hr
    rw [← hr0]
    exact ⟨rfl, fun ht => by simp [create_job, JobStatus.isTerminal] at ht⟩
  constructor
  · intro r hr ht
    have h1 := termOK_runCalls ttl jid cs _
      (fun r0 hr0 => termOK_of_ctOK r0 (hstart r0 hr0).1) r hr
    exact (termOK_iff r).mp h1 ht
  · intro hnr r hr
    exact (ctOK_iff r).mp (ctOK_runCalls ttl jid cs _ hnr hstart r hr)

/-- Witness for C3 at a concrete input: the record produced by the
`noRevert` run create → processing → completed satisfies the equivalence. -/
theorem c3_completed_at_iff_terminal_witness :
    ((some 2 : Option Nat) ≠ none ↔ JobStatus.completed.isTerminal = true) := by
  have h := (c3_completed_at_iff_terminal 1000 0 "j" JobType.rembg 1 ["a.png"]
      [setProcessingCall 1 "t", setCompletedCall 2 1 ["u"] none]).2 (by decide)
      { job_id := "j", job_type := JobType.rembg, status := JobStatus.completed,
        created_at := 0, updated_at := 2, completed_at := some 2, progress := 100,
        message := "Successfully processed 1 file(s)", error := none, input_count := 1,
        output_count := 1, filenames := ["a.png"], download_urls := ["u"],
        celery_task_id := some "t" } (by decide)
  exact h

/-! ## Claim C4: progress 100 versus status completed -/

/-- The `update_job` call made by the worker progress callback
`update_progress` in `src/tasks/rembg_tasks.py` lines 69-80: progress
`int((current / total) * 100)` plus a "Processing image current/total"
message, no status argument.  For the `current = total` case relevant here
the float computation is exact, and `current * 100 / total` in `Nat` agrees
with it. -/
def progressCall (now current total : Nat) : UpdateCall :=
  { now := now
    status := none
    progress := some ((current * 100 / total : Nat) : Int)
    message := some ("Processing image " ++ toString current ++ "/" ++ toString total)
    error := none
    output_count := none
    download_urls := none
    celery_task_id := none }

/-- The call supplies `status = completed`. -/
def suppliesCompleted (c : UpdateCall) : Bool :=
  match c.status with
  | some JobStatus.completed => true
  | _ => false

/-- The call supplies a progress value but no status (a progress callback). -/
def progressNoStatus (c : UpdateCall) : Bool := c.status.isNone && c.progress.isSome

/-- Every call that supplies `status = completed` also supplies progress 100
(true of `set_completed`, the only production writer of `completed`). -/
def completedHas100 (c : UpdateCall) : Bool :=
  !suppliesCompleted c || c.progress == some 100

/-- No progress-only call occurs after a call that supplies
`status = completed`. -/
def noLateProgress : List UpdateCall → Bool
  | [] => true
  | c :: rest =>
      (!suppliesCompleted c || rest.all (fun d => !progressNoStatus d)) && noLateProgress rest

/-- The one-directional C4 invariant: a completed record has progress 100. -/
def prOK (r : JobRecord) : Bool :=
  match r.status with
  | JobStatus.completed => r.progress == 100
  | _ => true

/-- One call preserves the C4 invariant, under the `completedHas100` and
`noLateProgress` side conditions. -/
theorem prOK_invStep (ttl : Nat) (jid : String) (c : UpdateCall) (rest : List UpdateCall)
    (s : Store) (hc : completedHas100 c = true)
    (hnl : (!suppliesCompleted c || rest.all (fun d => !progressNoStatus d)) = true)
    (h : ∀ r, recAt s jid = some r → prOK r = true ∧
      (r.status = JobStatus.completed → (c :: rest).all (fun d => !progressNoStatus d) = true)) :
    ∀ r, recAt (applyCall ttl jid s c) jid = some r → prOK r = true ∧
      (r.status = JobStatus.completed → rest.all (fun d => !progressNoStatus d) = true) := by
  intro r hr
  rw [recAt_applyCall] at hr
  cases hg : get_job s c.now jid with
  | none =>
    rw [hg] at hr
    obtain ⟨h1, h2⟩ := h r hr
    refine ⟨h1, fun ht => ?_⟩
    have h3 := h2 ht
    simp only [List.all_cons, Bool.and_eq_true] at h3
    exact h3.2
  | some r0 =>
    rw [hg] at hr
    simp only [Option.some.injEq] at hr
    subst hr
    obtain ⟨h1, h2⟩ := h r0 (recAt_of_get_job hg)
    cases hst : c.status with
    | none =>
      by_cases hcomp : r0.status = JobStatus.completed
      · have h3 := h2 hcomp
        simp only [List.all_cons, Bool.and_eq_true] at h3
        have hnp : progressNoStatus c = false := by
          have := h3.1
          revert this
          cases hpn : progressNoStatus c <;> simp
        have hprog : c.progress = none := by
          revert hnp
          unfold progressNoStatus
          rw [hst]
          cases hp : c.progress <;> simp
        constructor
        · have : r0.progress = 100 := by
            have := h1
            unfold prOK at this
            rw [hcomp] at this
            simpa using this
          simp [prOK, applyUpdate, hst, hcomp, hprog, this]
        · intro _
          exact h3.2
      · constructor
        · simp [prOK, applyUpdate, hst]
        · intro ht
          exact absurd (by simpa [applyUpdate, hst] using ht) hcomp
    | some st =>
      by_cases hstc : st = JobStatus.completed
      · subst hstc
        have hp100 : c.progress = some 100 := by
          unfold completedHas100 suppliesCompleted at hc
          rw [hst] at hc
          simp at hc
          exact hc
        constructor
        · simp [prOK, applyUpdate, hst, hp100]
        · intro _
          have hsc : suppliesCompleted c = true := by
            simp [suppliesCompleted, hst]
          simpa [hsc] using hnl
      · constructor
        · have hns : (applyUpdate r0 c).status = st := by simp [applyUpdate, hst]
          unfold prOK
          rw [hns]
          cases st <;> simp_all
        · intro ht
          rw [show (applyUpdate r0 c).status = st by simp [applyUpdate, hst]] at ht
          exact absurd ht hstc

/-- Folding `prOK_invStep` over a sequence. -/
theorem prOK_runCalls (ttl : Nat) (jid : String) :
    ∀ (cs : List UpdateCall) (s : Store),
      cs.all completedHas100 = true → noLateProgress cs = true →
      (∀ r, recAt s jid = some r → prOK r = true ∧
        (r.status = JobStatus.completed → cs.all (fun d => !progressNoStatus d) = true)) →
      ∀ r, recAt (runCalls ttl jid s cs) jid = some r → prOK r = true := by
  intro cs
  induction cs with
  | nil => intro s _ _ h r hr; exact (h r hr).1
  | cons c rest ih =>
    intro s hall hnl h r hr
    simp only [List.all_cons, Bool.and_eq_true] at hall
    unfold noLateProgress at hnl
    rw [Bool.and_eq_true] at hnl
    exact ih (applyCall ttl jid s c) hall.2 hnl.2
      (prOK_invStep ttl jid c rest s hall.1 hnl.1 h) r (by simpa [runCalls] using hr)

/-- The run of the C4 counterexample: create, `set_processing`, then the
worker progress callback for the last image (`current = total = 1`), which
writes progress 100 while the status is still `processing` —
`set_completed` only happens afterwards (`src/tasks/rembg_tasks.py` lines
83-104). -/
def c4BadStore : Store :=
  runCalls 1000 "j" (create_job emptyStore 1000 0 "j" JobType.rembg 1 ["a.png"]).1
    [setProcessingCall 1 "t", progressCall 2 1 1]

/-- Claim C4, counterexample: after create → `set_processing` → progress
callback `(1, 1)`, the record has `progress = 100` and
`status = processing`, refuting "progress equals 100 iff status is
completed". -/
theorem c4_counterexample :
    ¬ (∀ r, recAt c4BadStore "j" = some r →
        (r.progress = 100 ↔ r.status = JobStatus.completed)) := by
  intro h
  have hv : recAt c4BadStore "j" = some
      { job_id := "j", job_type := JobType.rembg, status := JobStatus.processing,
        created_at := 0, updated_at := 2, completed_at := none, progress := 100,
        message := "Processing image 1/1", error := none, input_count := 1,
        output_count := 0, filenames := ["a.png"], download_urls := [],
        celery_task_id := some "t" } := by decide
  have h2 := h _ hv
  exact absurd (h2.mp rfl) (by decide)

/-- Claim C4 (amended): for every job created by `create_job` and any
sequence of update calls in which (a) every call supplying
`status = completed` also supplies progress 100 (true of `set_completed`,
the only production writer of `completed`) and (b) no progress-only callback
runs after a completing call, a completed record has `progress = 100`. The
converse direction of the original claim is false: the final worker progress
callback writes progress 100 while the status is still `processing` (see the
counterexample). -/
theorem c4_completed_implies_progress100 (ttl now0 : Nat) (jid : String) (jt : JobType)
    (ic : Nat) (fns : List String) (cs : List UpdateCall)
    (hall : cs.all completedHas100 = true) (hnl : noLateProgress cs = true) :
    ∀ r, recAt (runCalls ttl jid (create_job emptyStore ttl now0 jid jt ic fns).1 cs) jid =
        some r → r.status = JobStatus.completed → r.progress = 100 := by
  intro r hr hcomp
  have hstart : ∀ r0, recAt (create_job emptyStore ttl now0 jid jt ic fns).1 jid = some r0 →
      prOK r0 = true ∧ (r0.status = JobStatus.completed →
        cs.all (fun d => !progressNoStatus d) = true) := by
    intro r0 hr0
    have he : (create_job emptyStore ttl now0 jid jt ic fns).2 = r0 := by
      simpa [create_job, recAt, setex] using hr0
    rw [← he]
    exact ⟨rfl, fun ht => by simp [create_job] at ht⟩
  have h1 := prOK_runCalls ttl jid cs _ hall hnl hstart r hr
  unfold prOK at h1
  rw [hcomp] at h1
  simpa using h1

/-- Witness for C4 at a concrete input: a full worker run
(processing → progress callbacks → `set_completed`) satisfies the side
conditions, and the completed record indeed has progress 100. -/
theorem c4_completed_implies_progress100_witness : (100 : Int) = 100 := by
  have h := c4_completed_implies_progress100 1000 0 "j" JobType.rembg 2
      ["a.png", "b.png"]
      [setProcessingCall 1 "t", progressCall 2 1 2, progressCall 3 2 2,
        setCompletedCall 4 2 ["u1", "u2"] none] (by decide) (by decide)
      { job_id := "j", job_type := JobType.rembg, status := JobStatus.completed,
        created_at := 0, updated_at := 4, completed_at := some 4, progress := 100,
        message := "Successfully processed 2 file(s)", error := none, input_count := 2,
        output_count := 2, filenames := ["a.png", "b.png"],
        download_urls := ["u1", "u2"], celery_task_id := some "t" } (by decide) rfl
  exact h

/-! ## Claim C10: frame conditions of `update_job` -/

/-- Claim C10: on an existing record, one `update_job` call (a) returns the
updated record and stores it under the job key with expiry `now + ttl` — the
full configured TTL measured from this write, not from creation; (b) leaves
every other key untouched; (c) always refreshes `updated_at` to the call
instant; (d) leaves every field whose argument was not supplied at its
previous value (including the identity fields, which have no argument at
all); and (e) touches `completed_at` only when a terminal status argument is
supplied, in which case it becomes `now`. -/
theorem c10_update_job_frame (s : Store) (ttl : Nat) (jid : String) (c : UpdateCall)
    (r : JobRecord) (h : get_job s c.now jid = some r) :
    (update_job s ttl jid c).2 = some (applyUpdate r c) ∧
    (update_job s ttl jid c).1 jid = some (applyUpdate r c, c.now + ttl) ∧
    (∀ id, id ≠ jid → (update_job s ttl jid c).1 id = s id) ∧
    (applyUpdate r c).updated_at = c.now ∧
    (applyUpdate r c).job_id = r.job_id ∧
    (applyUpdate r c).job_type = r.job_type ∧
    (applyUpdate r c).created_at = r.created_at ∧
    (applyUpdate r c).input_count = r.input_count ∧
    (applyUpdate r c).filenames = r.filenames ∧
    (c.status = none → (applyUpdate r c).status = r.status) ∧
    (c.progress = none → (applyUpdate r c).progress = r.progress) ∧
    (c.message = none → (applyUpdate r c).message = r.message) ∧
    (c.error = none → (applyUpdate r c).error = r.error) ∧
    (c.output_count = none → (applyUpdate r c).output_count = r.output_count) ∧
    (c.download_urls = none → (applyUpdate r c).download_urls = r.download_urls) ∧
    (c.celery_task_id = none → (applyUpdate r c).celery_task_id = r.celery_task_id) ∧
    (c.status = none → (applyUpdate r c).completed_at = r.completed_at) ∧
    (∀ st, c.status = some st → st.isTerminal = false →
      (applyUpdate r c).completed_at = r.completed_at) ∧
    (∀ st, c.status = some st → st.isTerminal = true →
      (applyUpdate r c).completed_at = some c.now) := by
  refine ⟨?_, ?_, ?_, rfl, rfl, rfl, rfl, rfl, rfl, ?_, ?_, ?_, ?_, ?_, ?_, ?_, ?_, ?_, ?_⟩
  · simp [update_job, h]
  · simp [update_job, h, setex]
  · intro id hid
    simp [update_job, h, setex, hid]
  · intro hst; simp [applyUpdate, hst]
  · intro hp; simp [applyUpdate, hp]
  · intro hm; simp [applyUpdate, hm]
  · intro he; simp [applyUpdate, he]
  · intro ho; simp [applyUpdate, ho]
  · intro hd; simp [applyUpdate, hd]
  · intro hc; simp [applyUpdate, hc]
  · intro hst; simp [applyUpdate, hst]
  · intro st hst hT; simp [applyUpdate, hst, hT]
  · intro st hst hT; simp [applyUpdate, hst, hT]

/-- Witness for C10 at a concrete input: a store holding one pending record,
updated with only a progress argument at time 5 and TTL 3600. -/
theorem c10_update_job_frame_witness :
    (update_job (setex emptyStore "j" 3600 0 (create_job emptyStore 3600 0 "j"
        JobType.rembg 1 ["a.png"]).2) 3600 "j"
      { now := 5, status := none, progress := some 40, message := none, error := none,
        output_count := none, download_urls := none, celery_task_id := none }).1 "j" =
      some (applyUpdate (create_job emptyStore 3600 0 "j" JobType.rembg 1 ["a.png"]).2
        { now := 5, status := none, progress := some 40, message := none, error := none,
          output_count := none, download_urls := none, celery_task_id := none },
        5 + 3600) :=
  (c10_update_job_frame (setex emptyStore "j" 3600 0 (create_job emptyStore 3600 0 "j"
      JobType.rembg 1 ["a.png"]).2) 3600 "j"
    { now := 5, status := none, progress := some 40, message := none, error := none,
      output_count := none, download_urls := none, celery_task_id := none }
    (create_job emptyStore 3600 0 "j" JobType.rembg 1 ["a.png"]).2 (by decide)).2.1

/-! ## Claim C1: the dispatch retry loop of `process_rembg` -/

theorem get_job_of_raw {s : Store} {jid : String} {r0 : JobRecord} {e0 now : Nat}
    (h : s jid = some (r0, e0)) (hlt : now < e0) : get_job s now jid = some r0 := by
  unfold get_job
  rw [h]
  simp [hlt]

theorem update_job_of_raw {s : Store} {jid : String} {r0 : JobRecord} {e0 : Nat}
    (ttl : Nat) (c : UpdateCall) (h : s jid = some (r0, e0)) (hlt : c.now < e0) :
    update_job s ttl jid c =
      (setex s jid ttl c.now (applyUpdate r0 c), some (applyUpdate r0 c)) := by
  unfold update_job
  rw [get_job_of_raw h hlt]

theorem setex_self (s : Store) (jid : String) (ttl now : Nat) (r : JobRecord) :
    setex s jid ttl now r jid = some (r, now + ttl) := by
  simp [setex]

theorem setProcessingCall_now (now : Nat) (tid : String) :
    (setProcessingCall now tid).now = now := rfl

theorem setFailedCall_now (now : Nat) (e : String) : (setFailedCall now e).now = now := rfl

/-- The retry-attempt message written before re-queuing,
`src/tasks/rembg_tasks.py` line 126:
`f"Retrying... (attempt {self.request.retries + 2}/{self.max_retries + 1})"`. -/
def retryMessage (retries maxRetries : Nat) : String :=
  "Retrying... (attempt " ++ toString (retries + 2) ++ "/" ++
    toString (maxRetries + 1) ++ ")"

/-- The message-only `update_job` call made before `self.retry`
(`src/tasks/rembg_tasks.py` lines 124-127). -/
def retryCall (now retries maxRetries : Nat) : UpdateCall :=
  { now := now
    status := none
    progress := none
    message := some (retryMessage retries maxRetries)
    error := none
    output_count := none
    download_urls := none
    celery_task_id := none }

theorem retryCall_now (now retries maxRetries : Nat) :
    (retryCall now retries maxRetries).now = now := rfl

/-- The `process_rembg` task (`src/tasks/rembg_tasks.py` lines 27-137)
against a backend whose call raises on every attempt, with `errs n` the text
of the exception raised on the execution whose prior-retry count is `n`.
Each execution marks the job `processing`; on failure, if
`self.request.retries < self.max_retries` it writes the retry message and
re-raises via `self.retry` (Celery then re-executes with the retry count
incremented), otherwise it calls `set_failed` with the error text verbatim.
`gas` is a structural-termination fuel kept equal to
`maxRetries - retries`; the branch condition mirrors the source condition
`self.request.retries < self.max_retries`.  Successive store writes are
given strictly increasing instants (`now`, `now+1`, `now+2`, ...).  Returns
the final store and the total number of executions performed. -/
def dispatchGo (ttl : Nat) (jid tid : String) (errs : Nat → String) (maxRetries : Nat) :
    Nat → Nat → Nat → Store → Store × Nat
  | gas, retries, now, s =>
    let s1 := (set_processing s ttl jid tid now).1
    if retries < maxRetries then
      match gas with
      | g + 1 =>
        let s2 := applyCall ttl jid s1 (retryCall (now + 1) retries maxRetries)
        let res := dispatchGo ttl jid tid errs maxRetries g (retries + 1) (now + 2) s2
        (res.1, res.2 + 1)
      | 0 => (s1, 0)
    else
      ((set_failed s1 ttl jid (errs retries) (now + 1)).1, 1)

/-- Dispatch of an always-failing task starting from prior-retry count
`retries`. -/
def dispatchAlwaysFailing (ttl : Nat) (jid tid : String) (errs : Nat → String)
    (maxRetries retries now : Nat) (s : Store) : Store × Nat :=
  dispatchGo ttl jid tid errs maxRetries (maxRetries - retries) retries now s

theorem dispatchGo_spec (ttl : Nat) (jid tid : String) (errs : Nat → String)
    (maxRetries : Nat) :
    ∀ gas retries now s (r0 : JobRecord) (e0 : Nat),
      gas = maxRetries - retries → retries ≤ maxRetries → 2 ≤ ttl →
      s jid = some (r0, e0) → now < e0 →
      (dispatchGo ttl jid tid errs maxRetries gas retries now s).2 =
          maxRetries - retries + 1 ∧
      ∃ rF, recAt (dispatchGo ttl jid tid errs maxRetries gas retries now s).1 jid =
          some rF ∧ rF.status = JobStatus.failed ∧ rF.error = some (errs maxRetries) ∧
          rF.message = "Processing failed" := by
  intro gas
  induction gas with
  | zero =>
    intro retries now s r0 e0 hgas hle httl hs hnow
    have hrm : retries = maxRetries := by omega
    have hnlt : ¬ retries < maxRetries := by omega
    have h1 := update_job_of_raw ttl (setProcessingCall now tid) hs hnow
    unfold dispatchGo
    rw [if_neg hnlt]
    simp only [set_processing, h1, setProcessingCall_now]
    have hs1 : (setex s jid ttl now (applyUpdate r0 (setProcessingCall now tid))) jid =
        some (applyUpdate r0 (setProcessingCall now tid), now + ttl) := setex_self ..
    have h2 := update_job_of_raw ttl
      (setFailedCall (now + 1) (errs retries)) hs1 (by simp [setFailedCall]; omega)
    simp only [set_failed, h2, setFailedCall_now]
    refine ⟨by omega, applyUpdate (applyUpdate r0 (setProcessingCall now tid))
      (setFailedCall (now + 1) (errs retries)), ?_, ?_, ?_, ?_⟩
    · simp [recAt, setex_self]
    · simp [applyUpdate, setFailedCall]
    · simp [applyUpdate, setFailedCall, hrm]
    · simp [applyUpdate, setFailedCall]
  | succ g ih =>
    intro retries now s r0 e0 hgas hle httl hs hnow
    have hlt : retries < maxRetries := by omega
    have h1 := update_job_of_raw ttl (setProcessingCall now tid) hs hnow
    unfold dispatchGo
    rw [if_pos hlt]
    simp only [set_processing, h1, setProcessingCall_now, applyCall]
    have hs1 : (setex s jid ttl now (applyUpdate r0 (setProcessingCall now tid))) jid =
        some (applyUpdate r0 (setProcessingCall now tid), now + ttl) := setex_self ..
    have h2 := update_job_of_raw ttl
      (retryCall (now + 1) retries maxRetries) hs1 (by simp [retryCall]; omega)
    simp only [h2, retryCall_now]
    have hs2 : (setex (setex s jid ttl now (applyUpdate r0 (setProcessingCall now tid)))
        jid ttl (now + 1)
        (applyUpdate (applyUpdate r0 (setProcessingCall now tid))
          (retryCall (now + 1) retries maxRetries))) jid =
        some (applyUpdate (applyUpdate r0 (setProcessingCall now tid))
          (retryCall (now + 1) retries maxRetries), (now + 1) + ttl) := setex_self ..
    obtain ⟨hcount, rF, hrec, hprops⟩ := ih (retries + 1) (now + 2) _ _ _
      (by omega) (by omega) httl hs2 (by omega)
    exact ⟨by rw [hcount]; omega, rF, hrec, hprops⟩

/-- Claim C1 (amended): a job created by `create_job` and dispatched to a
backend that fails on every attempt is executed exactly `maxRetries + 1`
times (the unit is re-queued with a retry-attempt message while the
prior-retry count is below `max_retries`), and the final record has status
`failed`, message "Processing failed", and `error` equal to the final
exception text of the final attempt, verbatim — hence non-empty whenever
that text is non-empty.  The unconditional original "non-empty error" fails when
the backend raises an exception whose `str` is empty (see the
counterexample). -/
theorem c1_retry_bound (ttl maxRetries ic : Nat) (jid tid : String) (errs : Nat → String)
    (jt : JobType) (fns : List String) (httl : 2 ≤ ttl) :
    (dispatchAlwaysFailing ttl jid tid errs maxRetries 0 1
        (create_job emptyStore ttl 0 jid jt ic fns).1).2 = maxRetries + 1 ∧
    ∃ rF, recAt (dispatchAlwaysFailing ttl jid tid errs maxRetries 0 1
        (create_job emptyStore ttl 0 jid jt ic fns).1).1 jid = some rF ∧
      rF.status = JobStatus.failed ∧ rF.error = some (errs maxRetries) ∧
      rF.message = "Processing failed" ∧
      (errs maxRetries ≠ "" → rF.error ≠ none ∧ rF.error ≠ some "") := by
  have hs0 : (create_job emptyStore ttl 0 jid jt ic fns).1 jid =
      some ((create_job emptyStore ttl 0 jid jt ic fns).2, 0 + ttl) := by
    simp [create_job, setex]
  obtain ⟨hcount, rF, hrec, hst, herr, hmsg⟩ :=
    dispatchGo_spec ttl jid tid errs maxRetries (maxRetries - 0) 0 1 _ _ _
      rfl (Nat.zero_le _) httl hs0 (by omega)
  refine ⟨by simpa using hcount, rF, hrec, hst, herr, hmsg, fun hne => ?_⟩
  rw [herr]
  exact ⟨by simp, by simpa using hne⟩

/-- Witness for C1 at a concrete input: `maxRetries = 2`, error text "boom"
on every attempt — exactly 3 executions and a `failed` record with
`error = "boom"`. -/
theorem c1_retry_bound_witness :
    (dispatchAlwaysFailing 10 "j" "t" (fun _ => "boom") 2 0 1
        (create_job emptyStore 10 0 "j" JobType.rembg 1 ["a.png"]).1).2 = 2 + 1 :=
  (c1_retry_bound 10 2 1 "j" "t" (fun _ => "boom") JobType.rembg ["a.png"]
    (by decide)).1

/-- Claim C1, counterexample to the unconditional "non-empty error": a
backend whose exception stringifies to the empty string (e.g. a bare
`raise ValueError()`) still exhausts its retries, but `set_failed` stores
`str(e) = ""` and the final `error` field is the empty string. -/
theorem c1_counterexample :
    ¬ (∀ rF, recAt (dispatchAlwaysFailing 10 "j" "t" (fun _ => "") 1 0 1
          (create_job emptyStore 10 0 "j" JobType.rembg 1 ["a.png"]).1).1 "j" =
        some rF → rF.error ≠ some "") := by
  intro h
  have hv : recAt (dispatchAlwaysFailing 10 "j" "t" (fun _ => "") 1 0 1
        (create_job emptyStore 10 0 "j" JobType.rembg 1 ["a.png"]).1).1 "j" = some
      { job_id := "j", job_type := JobType.rembg, status := JobStatus.failed,
        created_at := 0, updated_at := 4, completed_at := some 4, progress := 0,
        message := "Processing failed", error := some "", input_count := 1,
        output_count := 0, filenames := ["a.png"], download_urls := [],
        celery_task_id := some "t" } := by decide
  exact h _ hv rfl

/-! ## Claim C2: path resolution in `StorageService.get_file_path` -/

/-- Split a character list at `/` separators. -/
def splitCharsAux : List Char → List Char → List (List Char)
  | [], cur => [cur.reverse]
  | c :: cs, cur =>
      if c = '/' then cur.reverse :: splitCharsAux cs [] else splitCharsAux cs (c :: cur)

/-- Path-string components: split at `/` and drop empty components, as
`pathlib.Path` normalizes repeated separators. -/
def splitPath (s : String) : List String :=
  ((splitCharsAux s.data []).map (fun cs => String.mk cs)).filter (fun c => c ≠ "")

/-- Whether the path string is absolute (`pathlib`: a leading `/`). -/
def isAbs (s : String) : Bool :=
  match s.data with
  | c :: _ => c = '/'
  | [] => false

/-- Python `Path` join (`base_dir / job_id / filename`): an absolute right
operand replaces the accumulated path entirely. -/
def joinPath (b : List String) (s : String) : List String :=
  if isAbs s then splitPath s else b ++ splitPath s

/-- POSIX canonicalization as performed by `Path.resolve()` on a path rooted
at `/`: `.` is dropped, `..` removes the last accumulated component (and at
the root stays at the root); symlinks are not modelled. -/
def normAux : List String → List String → List String
  | acc, [] => acc
  | acc, c :: rest =>
      if c = "." then normAux acc rest
      else if c = ".." then normAux acc.dropLast rest
      else normAux (acc ++ [c]) rest

/-- Canonical components of a path. -/
def resolvePath (p : List String) : List String := normAux [] p

/-- Containment check: `resolved.relative_to(base_resolved)` succeeds exactly when the base
components lead the resolved components. -/
def isUnder : List String → List String → Bool
  | [], _ => true
  | _ :: _, [] => false
  | a :: restA, b :: restB => a == b && isUnder restA restB

/-- Model of `StorageService.get_file_path` (`src/services/storage.py` lines
137-151): build `base_dir / job_id / filename`, canonicalize it, and check
containment in the canonicalized role root (`relative_to` raising
`ValueError` is caught and mapped to `None`); then return the candidate path
if the file exists, else `None`.  The filesystem is the list of existing
canonical file paths; `file_path.exists()` consults the canonical path, as
the OS resolves `..` during lookup.  The function is total — traversal
outside the root and missing files both yield `none`, and no exception
escapes. -/
def get_file_path (fs : List (List String)) (base : List String)
    (job_id filename : String) : Option (List String) :=
  let file_path := joinPath (joinPath base job_id) filename
  if isUnder (resolvePath base) (resolvePath file_path) then
    if resolvePath file_path ∈ fs then some file_path else none
  else none

theorem normAux_append (xs ys : List String) :
    ∀ acc, normAux acc (xs ++ ys) = normAux (normAux acc xs) ys := by
  induction xs with
  | nil => intro acc; rfl
  | cons c rest ih =>
    intro acc
    by_cases h1 : c = "."
    · simp [normAux, h1, ih]
    · by_cases h2 : c = ".."
      · simp [normAux, h1, h2, ih]
      · simp [normAux, h1, h2, ih]

theorem normAux_plain (xs : List String) (h : ∀ c ∈ xs, c ≠ "." ∧ c ≠ "..") :
    ∀ acc, normAux acc xs = acc ++ xs := by
  induction xs with
  | nil => intro acc; simp [normAux]
  | cons c rest ih =>
    intro acc
    have hc := h c (by simp)
    have hr : ∀ c ∈ rest, c ≠ "." ∧ c ≠ ".." := fun d hd => h d (by simp [hd])
    simp [normAux, hc.1, hc.2, ih hr]

theorem dropLast_append_single (l : List String) (a : String) :
    (l ++ [a]).dropLast = l := by
  simp

theorem isUnder_diverge (l : List String) (x y : String) (rest : List String)
    (h : x ≠ y) : isUnder (l ++ [x]) (l ++ y :: rest) = false := by
  induction l with
  | nil => simp [isUnder, h]
  | cons a restL ih => simp [isUnder, ih]

/-- Claim C2 (amended): `get_file_path` returns `None` (and never raises —
the model is total and the `relative_to` failure path is the guarded
branch) for every `(job_id, filename)` whose canonicalized candidate path
escapes the root directory of the role; in particular
`get_file_path(job_id, "../../etc/passwd")` is `None` for every
single-component job id (given a root not itself named `etc`).  The original
stronger reading of the original claim — `None` for *every* filename containing a
traversal component — is false: a `..` that canonicalizes back under the
same role root (e.g. into the directory of a sibling job) passes the containment
check (see the counterexample). -/
theorem c2_traversal_outside_root (fs : List (List String)) (base : List String)
    (jid fname : String) :
    (isUnder (resolvePath base) (resolvePath (joinPath (joinPath base jid) fname)) =
        false → get_file_path fs base jid fname = none) ∧
    (∀ hb : base ≠ [], (∀ c ∈ base, c ≠ "." ∧ c ≠ "..") → base.getLast hb ≠ "etc" →
      splitPath jid = [jid] → isAbs jid = false → jid ≠ "." → jid ≠ ".." →
      get_file_path fs base jid "../../etc/passwd" = none) := by
  constructor
  · intro h
    unfold get_file_path
    simp [h]
  · intro hb hplain hlast hsplit habs hdot hdots
    have hjoin1 : joinPath base jid = base ++ [jid] := by
      unfold joinPath
      rw [habs]
      simp [hsplit]
    have hjoin2 : joinPath (base ++ [jid]) "../../etc/passwd" =
        base ++ [jid] ++ ["..", "..", "etc", "passwd"] := by
      unfold joinPath
      have : isAbs "../../etc/passwd" = false := by decide
      rw [this]
      simp
      decide
    have hresolved : resolvePath (base ++ [jid] ++ ["..", "..", "etc", "passwd"]) =
        base.dropLast ++ ["etc", "passwd"] := by
      unfold resolvePath
      rw [normAux_append, normAux_append]
      rw [normAux_plain base hplain]
      simp only [List.nil_append]
      have h1 : normAux base [jid] = base ++ [jid] :=
        normAux_plain [jid] (by simpa using ⟨hdot, hdots⟩) base
      rw [h1]
      show normAux (base ++ [jid]) (".." :: ".." :: "etc" :: "passwd" :: []) = _
      rw [show normAux (base ++ [jid]) (".." :: ".." :: "etc" :: "passwd" :: []) =
          normAux (base ++ [jid]).dropLast (".." :: "etc" :: "passwd" :: []) from by
        simp [normAux]]
      rw [dropLast_append_single]
      rw [show normAux base (".." :: "etc" :: "passwd" :: []) =
          normAux base.dropLast ("etc" :: "passwd" :: []) from by simp [normAux]]
      exact normAux_plain _ (by decide) _
    have hbase : resolvePath base = base := by
      unfold resolvePath
      exact normAux_plain base hplain []
    have hpref : isUnder (resolvePath base)
        (resolvePath (joinPath (joinPath base jid) "../../etc/passwd")) = false := by
      rw [hjoin1, hjoin2, hresolved, hbase]
      calc isUnder base (base.dropLast ++ ["etc", "passwd"])
          = isUnder (base.dropLast ++ [base.getLast hb])
              (base.dropLast ++ "etc" :: ["passwd"]) := by
            rw [List.dropLast_append_getLast hb]
        _ = false := isUnder_diverge _ _ _ _ hlast
    unfold get_file_path
    simp [hpref]

/-- Witness for C2 at concrete inputs: under root `/data/outputs`, both an
absolute filename and the classic `../../etc/passwd` resolve to `None` for
job id "job1", even with a populated filesystem. -/
theorem c2_traversal_outside_root_witness :
    get_file_path [["data", "outputs", "job1", "a.png"]] ["data", "outputs"] "job1"
        "/etc/passwd" = none ∧
    get_file_path [["data", "outputs", "job1", "a.png"]] ["data", "outputs"] "job1"
        "../../etc/passwd" = none := by
  constructor
  · exact (c2_traversal_outside_root [["data", "outputs", "job1", "a.png"]]
      ["data", "outputs"] "job1" "/etc/passwd").1 (by decide)
  · exact (c2_traversal_outside_root [["data", "outputs", "job1", "a.png"]]
      ["data", "outputs"] "job1" "../../etc/passwd").2 (by decide) (by decide)
      (by decide) (by decide) (by decide) (by decide) (by decide)

/-- Claim C2, counterexample: the filename `../job2/out.png` contains a
path-traversal component, yet from job "job1" it canonicalizes to
`/data/outputs/job2/out.png`, which is still under the role root
`/data/outputs`, so the containment check passes and `get_file_path`
returns the path of the file of the *sibling job* instead of not-found — the
code checks containment in the role root, not in the own directory of the job. -/
theorem c2_counterexample :
    ¬ ((".." ∈ splitPath "../job2/out.png") →
        get_file_path [["data", "outputs", "job2", "out.png"]] ["data", "outputs"]
          "job1" "../job2/out.png" = none) := by
  decide

/-! ## Claim C6: upload validation ordering in the TRELLIS router -/

/-- Backend variants, `TrellisBackend` from `src/models/enums.py`. -/
inductive TrellisBackend
  | huggingface
  | runpod
  | modal
deriving DecidableEq, Repr

/-- Model of the `TrellisBackend(backend)` enum construction: `ValueError` (modelled as
`none`) for any string outside the configured variants. -/
def parseTrellisBackend : String → Option TrellisBackend
  | "huggingface" => some TrellisBackend.huggingface
  | "runpod" => some TrellisBackend.runpod
  | "modal" => some TrellisBackend.modal
  | _ => none

/-- Outcome of one `convert_to_3d` request: an HTTP error (status code and
detail) or success, together with the resulting job store and the list of
`(job_id, filename)` uploads saved on disk. -/
structure ConvertResult where
  httpError : Option (Nat × String)
  store : Store
  uploads : List (String × String)

/-- Model of `convert_to_3d` (`src/routers/trellis.py` lines 32-137), modelled up to
the task enqueue: the validation prefix — file count (lines 52-59), backend
name (lines 62-68), RunPod endpoint configuration (lines 71-75) — runs
before the job id is even generated, so before any file is saved and any
job record created; on the success path the files are saved under the job
id, the `trellis` job record is created, and the Celery task id is attached
via `update_job`.  Detail strings are abridged. -/
def convert_to_3d (maxFiles : Nat) (runpodEndpoint : Option String) (s : Store)
    (uploads : List (String × String)) (ttl now : Nat) (job_id : String)
    (files : List String) (backend : String) (taskId : String) : ConvertResult :=
  if files.length = 0 then
    { httpError := some (400, "At least one file is required"), store := s,
      uploads := uploads }
  else if files.length > maxFiles then
    { httpError := some (400, "Maximum files per request exceeded"), store := s,
      uploads := uploads }
  else
    match parseTrellisBackend backend with
    | none =>
        { httpError := some (400, "Invalid backend: " ++ backend), store := s,
          uploads := uploads }
    | some tb =>
        if tb = TrellisBackend.runpod ∧ runpodEndpoint = none then
          { httpError := some (400, "RunPod backend not configured"), store := s,
            uploads := uploads }
        else
          let uploads2 := uploads ++ files.map (fun f => (job_id, f))
          let s1 := (create_job s ttl now job_id JobType.trellis files.length files).1
          let s2 := (update_job s1 ttl job_id
            { now := now, status := none, progress := none, message := none,
              error := none, output_count := none, download_urls := none,
              celery_task_id := some taskId }).1
          { httpError := none, store := s2, uploads := uploads2 }

/-- Claim C6: a 3D-conversion upload naming the `runpod` backend while no
RunPod endpoint is configured is rejected with a 400 validation error, with
the job store and saved uploads unchanged — no job record is created and no
file is saved; likewise for any backend name outside the configured
variants. -/
theorem c6_unconfigured_backend_rejected (maxFiles : Nat) (s : Store)
    (uploads : List (String × String)) (ttl now : Nat) (job_id taskId : String)
    (files : List String) :
    ((convert_to_3d maxFiles none s uploads ttl now job_id files "runpod"
        taskId).httpError.map Prod.fst = some 400 ∧
      (convert_to_3d maxFiles none s uploads ttl now job_id files "runpod"
        taskId).store = s ∧
      (convert_to_3d maxFiles none s uploads ttl now job_id files "runpod"
        taskId).uploads = uploads) ∧
    (∀ ep b, parseTrellisBackend b = none →
      (convert_to_3d maxFiles ep s uploads ttl now job_id files b
          taskId).httpError.map Prod.fst = some 400 ∧
      (convert_to_3d maxFiles ep s uploads ttl now job_id files b taskId).store = s ∧
      (convert_to_3d maxFiles ep s uploads ttl now job_id files b
          taskId).uploads = uploads) := by
  constructor
  · unfold convert_to_3d
    by_cases h0 : files.length = 0
    · simp [h0]
    · by_cases h1 : files.length > maxFiles
      · simp [h0, h1]
      · rw [show parseTrellisBackend "runpod" = some TrellisBackend.runpod from rfl]
        simp [h0, h1]
  · intro ep b hb
    unfold convert_to_3d
    by_cases h0 : files.length = 0
    · simp [h0]
    · by_cases h1 : files.length > maxFiles
      · simp [h0, h1]
      · simp [h0, h1, hb]

/-- Witness for C6 at concrete inputs: one file, empty store, unconfigured
RunPod endpoint — and an unknown backend name "bogus". -/
theorem c6_unconfigured_backend_rejected_witness :
    (convert_to_3d 10 none emptyStore [] 3600 0 "j" ["a.png"] "runpod"
      "t").httpError.map Prod.fst = some 400 ∧
    (convert_to_3d 10 (some "https://ep") emptyStore [] 3600 0 "j" ["a.png"] "bogus"
      "t").httpError.map Prod.fst = some 400 := by
  constructor
  · exact (c6_unconfigured_backend_rejected 10 emptyStore [] 3600 0 "j" "t"
      ["a.png"]).1.1
  · exact ((c6_unconfigured_backend_rejected 10 emptyStore [] 3600 0 "j" "t"
      ["a.png"]).2 (some "https://ep") "bogus" rfl).1

/-! ## Claim C7: deleting a completed job -/

/-- Outcome of one `DELETE /jobs/id` request. -/
structure DeleteResult where
  httpError : Option (Nat × String)
  store : Store
  cleanedJobs : List String
  revoked : List String

/-- The conditional cancellation step of the delete route
(`src/routers/jobs.py` lines 310-312): `set_cancelled` is applied only when
the current status is `pending` or `processing`. -/
def cancelIfActive (s : Store) (ttl now : Nat) (jid : String) (st : JobStatus) : Store :=
  if st = JobStatus.pending ∨ st = JobStatus.processing then
    (set_cancelled s ttl jid now).1
  else s

/-- Model of the `delete_job` route (`src/routers/jobs.py` lines 282-322): 404 when the
record is missing or expired; otherwise best-effort revocation of the
attached Celery task, cancellation only of a pending/processing job, file
cleanup for the job, unconditional deletion of the record, and a success
response. -/
def delete_job_route (s : Store) (ttl now : Nat) (jid : String) : DeleteResult :=
  match get_job s now jid with
  | none =>
      { httpError := some (404, "Job not found"), store := s, cleanedJobs := [],
        revoked := [] }
  | some r =>
      let revoked := match r.celery_task_id with | some t => [t] | none => []
      let s1 := cancelIfActive s ttl now jid r.status
      let s2 := (delete_job_store s1 now jid).1
      { httpError := none, store := s2, cleanedJobs := [jid], revoked := revoked }

/-- Claim C7 (amended): deleting a job whose status is `completed` never
overwrites the status to `cancelled` — the cancellation step leaves the
store untouched for a completed job — but the request is *not* surfaced as
a "not in cancellable state" error: it succeeds, deletes the record
unconditionally, and only a subsequent delete of the now-missing job
returns 404 not-found. -/
theorem c7_delete_completed_never_cancels (s : Store) (ttl now now2 : Nat)
    (jid : String) (r : JobRecord) (hget : get_job s now jid = some r)
    (hst : r.status = JobStatus.completed) :
    cancelIfActive s ttl now jid r.status = s ∧
    (delete_job_route s ttl now jid).httpError = none ∧
    (delete_job_route s ttl now jid).store jid = none ∧
    (delete_job_route (delete_job_route s ttl now jid).store ttl now2 jid).httpError =
      some (404, "Job not found") := by
  have hcancel : cancelIfActive s ttl now jid r.status = s := by
    simp [cancelIfActive, hst]
  refine ⟨hcancel, ?_, ?_, ?_⟩
  · unfold delete_job_route
    rw [hget]
  · unfold delete_job_route
    rw [hget]
    simp [delete_job_store]
  · unfold delete_job_route
    rw [hget]
    simp [delete_job_store, get_job]

/-- The store of the C7 scenario: a job created and completed. -/
def c7Store : Store :=
  (set_completed (create_job emptyStore 100 0 "j" JobType.trellis 1 ["a.png"]).1
    100 "j" 1 ["u"] none 1).1

/-- Witness for C7 at a concrete input: deleting the completed job succeeds
(no HTTP error) and removes the record. -/
theorem c7_delete_completed_never_cancels_witness :
    (delete_job_route c7Store 100 5 "j").httpError = none ∧
    (delete_job_route c7Store 100 5 "j").store "j" = none := by
  have h := c7_delete_completed_never_cancels c7Store 100 5 6 "j"
    { job_id := "j", job_type := JobType.trellis, status := JobStatus.completed,
      created_at := 0, updated_at := 1, completed_at := some 1, progress := 100,
      message := "Successfully processed 1 file(s)", error := none, input_count := 1,
      output_count := 1, filenames := ["a.png"], download_urls := ["u"],
      celery_task_id := none } (by decide) rfl
  exact ⟨h.2.1, h.2.2.1⟩

/-- Claim C7, counterexample: for the concrete completed job, the delete
request does not produce any error at all (it reports success and deletes
the record), refuting "surfaced to the caller as the job not being in a
cancellable state". -/
theorem c7_counterexample :
    ¬ (∀ r, get_job c7Store 5 "j" = some r → r.status = JobStatus.completed →
        (delete_job_route c7Store 100 5 "j").httpError ≠ none) := by
  intro h
  have hv : get_job c7Store 5 "j" = some
      { job_id := "j", job_type := JobType.trellis, status := JobStatus.completed,
        created_at := 0, updated_at := 1, completed_at := some 1, progress := 100,
        message := "Successfully processed 1 file(s)", error := none, input_count := 1,
        output_count := 1, filenames := ["a.png"], download_urls := ["u"],
        celery_task_id := none } := by decide
  exact h _ hv rfl (by decide)

/-! ## Claim C8: Gradio result extraction precedence -/

/-- The result shapes the hosted Gradio demo can return
(`src/services/trellis_v1.py` lines 153-161): a keyed dict, a bare string
path, a positional tuple/list, or anything else. -/
inductive GradioResult
  | dict (entries : List (String × String))
  | str (s : String)
  | tuple (elems : List String)
  | other
deriving DecidableEq, Repr

/-- Python `key in d` / `d[key]` over the dict entries (keys unique). -/
def dictGet : List (String × String) → String → Option String
  | [], _ => none
  | (k, v) :: rest, key => if k = key then some v else dictGet rest key

/-- Model of `_extract_glb_path` (`src/services/trellis_v1.py` lines 153-179):
for a dict, the canonical key `glb` first, then the alternates `output`,
`file`, `path`, `model` in that order (the `for key in [...]` loop
unrolled), else `ValueError`; a bare string as-is; a tuple or list by its
first element (`result[0]` on an empty one raises `IndexError`); any other
shape raises `ValueError`.  Raised exceptions are `Except.error`. -/
def extract_glb_path : GradioResult → Except String String
  | GradioResult.dict entries =>
      match dictGet entries "glb" with
      | some v => Except.ok v
      | none =>
          match dictGet entries "output" with
          | some v => Except.ok v
          | none =>
              match dictGet entries "file" with
              | some v => Except.ok v
              | none =>
                  match dictGet entries "path" with
                  | some v => Except.ok v
                  | none =>
                      match dictGet entries "model" with
                      | some v => Except.ok v
                      | none => Except.error "No GLB path found in result dict"
  | GradioResult.str s => Except.ok s
  | GradioResult.tuple [] => Except.error "IndexError: tuple index out of range"
  | GradioResult.tuple (x :: _) => Except.ok x
  | GradioResult.other => Except.error "Unexpected result format"

/-- Claim C8: the extraction precedence of `_extract_glb_path` — `glb`
wins over everything; otherwise `output`, then `file`, then `path`, then
`model`; a dict with none of the five keys is a hard error; a bare string
is returned as-is; a non-empty tuple/list yields its first element; an
empty tuple and any other shape are hard errors. -/
theorem c8_extraction_precedence (entries : List (String × String)) (s x : String)
    (elems : List String) :
    (∀ v, dictGet entries "glb" = some v →
      extract_glb_path (GradioResult.dict entries) = Except.ok v) ∧
    (dictGet entries "glb" = none → ∀ v, dictGet entries "output" = some v →
      extract_glb_path (GradioResult.dict entries) = Except.ok v) ∧
    (dictGet entries "glb" = none → dictGet entries "output" = none →
      ∀ v, dictGet entries "file" = some v →
      extract_glb_path (GradioResult.dict entries) = Except.ok v) ∧
    (dictGet entries "glb" = none → dictGet entries "output" = none →
      dictGet entries "file" = none → ∀ v, dictGet entries "path" = some v →
      extract_glb_path (GradioResult.dict entries) = Except.ok v) ∧
    (dictGet entries "glb" = none → dictGet entries "output" = none →
      dictGet entries "file" = none → dictGet entries "path" = none →
      ∀ v, dictGet entries "model" = some v →
      extract_glb_path (GradioResult.dict entries) = Except.ok v) ∧
    (dictGet entries "glb" = none → dictGet entries "output" = none →
      dictGet entries "file" = none → dictGet entries "path" = none →
      dictGet entries "model" = none →
      extract_glb_path (GradioResult.dict entries) =
        Except.error "No GLB path found in result dict") ∧
    extract_glb_path (GradioResult.str s) = Except.ok s ∧
    extract_glb_path (GradioResult.tuple (x :: elems)) = Except.ok x ∧
    extract_glb_path (GradioResult.tuple []) =
      Except.error "IndexError: tuple index out of range" ∧
    extract_glb_path GradioResult.other = Except.error "Unexpected result format" := by
  refine ⟨?_, ?_, ?_, ?_, ?_, ?_, rfl, rfl, rfl, rfl⟩
  · intro v hv
    simp only [extract_glb_path]
    rw [hv]
  · intro h1 v hv
    simp only [extract_glb_path]
    rw [h1, hv]
  · intro h1 h2 v hv
    simp only [extract_glb_path]
    rw [h1, h2, hv]
  · intro h1 h2 h3 v hv
    simp only [extract_glb_path]
    rw [h1, h2, h3, hv]
  · intro h1 h2 h3 h4 v hv
    simp only [extract_glb_path]
    rw [h1, h2, h3, h4, hv]
  · intro h1 h2 h3 h4 h5
    simp only [extract_glb_path]
    rw [h1, h2, h3, h4, h5]

/-- Witness for C8 at concrete inputs: `glb` beats `output` even listed
later, and with only `path`/`model` present, `path` wins. -/
theorem c8_extraction_precedence_witness :
    extract_glb_path (GradioResult.dict [("output", "o.glb"), ("glb", "g.glb")]) =
      Except.ok "g.glb" ∧
    extract_glb_path (GradioResult.dict [("model", "m.glb"), ("path", "p.glb")]) =
      Except.ok "p.glb" := by
  constructor
  · exact (c8_extraction_precedence [("output", "o.glb"), ("glb", "g.glb")] "" ""
      []).1 "g.glb" rfl
  · exact ((c8_extraction_precedence [("model", "m.glb"), ("path", "p.glb")] "" ""
      []).2.2.2.1 rfl rfl rfl "p.glb" rfl)

/-! ## Claim C9: the RunPod status-polling loop has no overall timeout -/

/-- Remote job status responses polled from the RunPod `/status/{id}` URL
(`src/services/trellis_v2.py` lines 197-219). -/
inductive RemoteStatus
  | completed (glb : Option String)
  | failed (error : String)
  | cancelled
  | inQueue
  | inProgress
  | unknown (s : String)
deriving DecidableEq, Repr

/-- One iteration of the `_poll_result` loop body: `COMPLETED` returns the
GLB payload (or raises when it is missing), `FAILED` and `CANCELLED` raise,
and `IN_QUEUE`, `IN_PROGRESS` and any unknown status sleep for the poll
interval and continue (`none`). -/
def pollOnce : RemoteStatus → Option (Except String String)
  | RemoteStatus.completed (some glb) => some (Except.ok glb)
  | RemoteStatus.completed none => some (Except.error "No GLB data in completed job")
  | RemoteStatus.failed e => some (Except.error ("RunPod job failed: " ++ e))
  | RemoteStatus.cancelled => some (Except.error "RunPod job was cancelled")
  | RemoteStatus.inQueue => none
  | RemoteStatus.inProgress => none
  | RemoteStatus.unknown _ => none

/-- The outcome of `_poll_result` (`src/services/trellis_v2.py` lines
171-219) after examining at most `n` successive status responses, where
`stream k` is the k-th response.  The loop is `while True` with no deadline
check of any kind — its only exits are the terminal statuses — so `none`
means the loop is still polling after `n` responses.  The client
`timeout` field (`__init__`, lines 26-49) is an `httpx` per-request
timeout; it bounds each individual HTTP call, not the loop. -/
def pollResultN (stream : Nat → RemoteStatus) : Nat → Option (Except String String)
  | 0 => none
  | n + 1 =>
      match pollOnce (stream 0) with
      | some out => some out
      | none => pollResultN (fun k => stream (k + 1)) n

theorem pollResultN_none (n : Nat) :
    ∀ stream : Nat → RemoteStatus, (∀ k, pollOnce (stream k) = none) →
      pollResultN stream n = none := by
  induction n with
  | zero => intro stream _; rfl
  | succ m ih =>
    intro stream h
    unfold pollResultN
    rw [h 0]
    exact ih _ (fun k => h (k + 1))

/-- Claim C9: against a remote endpoint whose status response is always
`IN_QUEUE` — never `COMPLETED`, `FAILED` or `CANCELLED` — the polling loop
is still running after `n` polls, for every `n`: `_poll_result` applies no
overall timeout and polls forever, contradicting the specified overall
timeout distinct from the poll interval. -/
theorem c9_poll_forever :
    ∀ n, pollResultN (fun _ => RemoteStatus.inQueue) n = none :=
  fun n => pollResultN_none n _ (fun _ => rfl)

end Trellis
